import Mathlib

/-!
Verification of the sa11y AriaDriver core (`src/lib/index.js`) against its
natural-language specification.

The remote browser-automation backend is modelled explicitly: the list of
elements a CSS selector matches (in document order) is an input, each element
carries its attribute map, and whether the remote page accepts focus on an
element (`document.activeElement === target` after `target.focus()`) is a
per-element boolean.  Commands issued to the backend (the focus script and the
Enter key dispatch) are recorded in an explicit trace so that claims about
which commands are issued, and in what order, are statable.
-/

/-- The stable machine-readable error/warning codes of `AriaDriverError`
(`src/lib/error.js` keys, as used in `src/lib/index.js` and the tests). -/
inductive ErrorCode
  | elementNotFound
  | ambiguousReference
  | poorSemantics
  | elementUnfocusable
  | invalidMarkup
  | timeout
deriving DecidableEq, Repr

/-- `AriaDriverError(code, args, message, link)`: code plus positional
interpolation arguments, optional overriding message, optional link.
Used both for fatal errors (thrown) and advisory warnings (emitted). -/
structure AriaDriverError where
  code : ErrorCode
  args : List String := []
  message : Option String := none
  link : Option String := none
deriving DecidableEq, Repr

/-- A live element of the remote page: its attribute list, and whether the
remote page reports it as `document.activeElement` after `element.focus()`
(the value returned by the script `_use` executes remotely). -/
structure Element where
  attrs : List (String × String)
  focusAccepted : Bool
deriving DecidableEq, Repr

/-- WebDriver `getAttribute`: the attribute's value, or null (`none`) when the
attribute is absent. -/
def Element.getAttribute (e : Element) (name : String) : Option String :=
  e.attrs.lookup name

/-- Accumulate a list of decimal digit characters into a natural number. -/
def digitsToNat (ds : List Char) : Nat :=
  ds.foldl (fun a c => a * 10 + (c.toNat - 48)) 0

/-- JavaScript `parseInt(s, 10)`: skip leading whitespace, accept an optional
sign, read the longest leading run of decimal digits; `NaN` (here `none`)
when that run is empty. -/
def parseIntJS (s : String) : Option Int :=
  match s.data.dropWhile Char.isWhitespace with
  | '-' :: rest =>
      let ds := rest.takeWhile Char.isDigit
      if ds.isEmpty then none else some (-(Int.ofNat (digitsToNat ds)))
  | '+' :: rest =>
      let ds := rest.takeWhile Char.isDigit
      if ds.isEmpty then none else some (Int.ofNat (digitsToNat ds))
  | rest =>
      let ds := rest.takeWhile Char.isDigit
      if ds.isEmpty then none else some (Int.ofNat (digitsToNat ds))

/-- The guard `parseInt(tabIndex, 10) > 0` of `_findOne`, where `tabIndex` is
the result of `getAttribute('tabindex')`; `parseInt(null, 10)` is `NaN`, and
`NaN > 0` is false, so an absent attribute never passes the guard. -/
def positiveTabIndex (tabIndex : Option String) : Bool :=
  match tabIndex with
  | none => false
  | some s =>
      match parseIntJS s with
      | some n => decide (0 < n)
      | none => false

/-- `AriaDriver#_findOne(selector)`.  `targets` is the list the backend returns
for `findElements(By.css(selector))`, in document order.  Returns the warnings
emitted on the driver's `warning` channel during the call, and either the
chosen element or the thrown `AriaDriverError`. -/
def _findOne (selector : String) (targets : List Element) :
    List AriaDriverError × Except AriaDriverError Element :=
  match targets with
  | [] => ([], Except.error { code := .elementNotFound, args := [selector] })
  | first :: rest =>
      let ambiguousWarnings : List AriaDriverError :=
        if rest.length > 0 then
          [{ code := .ambiguousReference, args := [selector] }]
        else []
      let tabIndex := first.getAttribute "tabindex"
      let poorSemanticsWarnings : List AriaDriverError :=
        if positiveTabIndex tabIndex then
          [{ code := .poorSemantics,
             message := some ("The tabindex property is set to " ++
               tabIndex.getD "null" ++ ", but it should not exceed 0."),
             link := some "https://www.w3.org/TR/wai-aria-practices-1.1/#kbd_general_between" }]
        else []
      (ambiguousWarnings ++ poorSemanticsWarnings, Except.ok first)

/-- A command issued to the remote automation backend. -/
inductive Command
  | focusScript (target : Element)
  | sendKeysEnter (target : Element)
  | pollPredicate
deriving DecidableEq, Repr

/-- `AriaDriver#_use(selector, target)`: fail `ELEMENT-UNFOCUSABLE` when
`aria-hidden` is the literal string `"true"`; otherwise run the remote focus
script, fail `ELEMENT-UNFOCUSABLE` when the page did not accept focus, and
otherwise dispatch the Enter key.  Returns the trace of backend commands
issued, in order, and the outcome. -/
def _use (selector : String) (target : Element) :
    List Command × Except AriaDriverError Unit :=
  if target.getAttribute "aria-hidden" = some "true" then
    ([], Except.error { code := .elementUnfocusable, args := [selector] })
  else
    let accepted := target.focusAccepted
    if !accepted then
      ([Command.focusScript target],
       Except.error { code := .elementUnfocusable, args := [selector] })
    else
      ([Command.focusScript target, Command.sendKeysEnter target], Except.ok ())

/-- `AriaDriver#use(selector)`: `this._use(selector, await this._findOne(selector))`.
A rejection of `_findOne` propagates before `_use` runs, so no backend command
is issued in that case. -/
def use (selector : String) (targets : List Element) :
    List AriaDriverError × List Command × Except AriaDriverError Unit :=
  match _findOne selector targets with
  | (ws, Except.error e) => (ws, [], Except.error e)
  | (ws, Except.ok target) =>
      let r := _use selector target
      (ws, r.1, r.2)

/-- The options object passed to the `AriaDriver` constructor.  A JavaScript
object may carry any keys; the fields here are the two keys the constructor
reads after merging with `defaults` (`url`, `patience`) plus the two keys the
specification names (`endpoint`, `patienceMs`), which the constructor never
reads.  `none` models the key being absent. -/
structure Options where
  url : Option String := none
  patience : Option Int := none
  endpoint : Option String := none
  patienceMs : Option Int := none
deriving DecidableEq, Repr

/-- The module-level `defaults` object: `{url: undefined, patience: 1000}`. -/
def defaults : Options :=
  { url := none, patience := some 1000 }

/-- `Object.assign({}, defaults, options)`: a key of the result comes from
`options` when present there, otherwise from `defaults`; when `options` is
`undefined` the result is just (a copy of) `defaults`. -/
def mergeWithDefaults (options : Option Options) : Options :=
  match options with
  | none => defaults
  | some o =>
      { url := o.url <|> defaults.url,
        patience := o.patience <|> defaults.patience,
        endpoint := o.endpoint <|> defaults.endpoint,
        patienceMs := o.patienceMs <|> defaults.patienceMs }

/-- The per-instance state the `AriaDriver` constructor establishes:
`this._patience = options.patience` after the merge, and the server location
handed to the builder (`usingServer(options.url)`). -/
structure AriaDriver where
  _patience : Option Int
  serverUrl : Option String
deriving DecidableEq, Repr

/-- `new AriaDriver(options)`. -/
def AriaDriver.construct (options : Option Options) : AriaDriver :=
  let merged := mergeWithDefaults options
  { _patience := merged.patience, serverUrl := merged.url }

/-- The read-only `patience` accessor: `return this._patience`. -/
def AriaDriver.patience (d : AriaDriver) : Option Int :=
  d._patience

/-- The mutable state observably attached to a driver instance during a
session: the instance fields set by the constructor, the stream of warnings
emitted so far, and the trace of backend commands issued so far. -/
structure DriverState where
  driver : AriaDriver
  warnings : List AriaDriverError
  commands : List Command
deriving Repr

/-- The state immediately after `new AriaDriver(options)`. -/
def initialState (options : Option Options) : DriverState :=
  { driver := AriaDriver.construct options, warnings := [], commands := [] }

/-- The driver operations exposed to callers that touch per-instance state.
Each carries the backend's response (the element list a selector resolves to). -/
inductive DriverOp
  | opUse (selector : String) (targets : List Element)
  | opCount (selector : String) (targets : List Element)
  | opGet (url : String)
deriving Repr

/-- One driver method call.  `use` appends its emitted warnings and issued
commands; `count` and `get` only query or navigate.  No method assigns to
`this._patience`, so the `driver` field is threaded through unchanged. -/
def stepOp (s : DriverState) (op : DriverOp) : DriverState :=
  match op with
  | .opUse selector targets =>
      let r := use selector targets
      { s with warnings := s.warnings ++ r.1, commands := s.commands ++ r.2.1 }
  | .opCount _ _ => s
  | .opGet _ => s

/-- Modelled from the spec: the popup widget implementation
(`src/lib/widgets/popup.js`) is not present under `src/`; only its tests are.
The accepted tokens of the trigger's expected-open-state attribute
(`aria-haspopup`) are those the test suite exercises as valid:
`true`, `menu`, `listbox`, `tree`, `grid`, `dialog`. -/
def popupTokens : List String :=
  ["true", "menu", "listbox", "tree", "grid", "dialog"]

/-- Modelled from the spec: the Widget Markup Validator for the popup kind
(spec section 4.4; implementation not under `src/`).  The attribute must be
present and equal to an accepted token; an absent attribute, the literal
`"false"`, or any unrecognized token fails `INVALID-MARKUP`. -/
def validatePopupMarkup (selector : String) (trigger : Element) :
    Except AriaDriverError Unit :=
  match trigger.getAttribute "aria-haspopup" with
  | none => Except.error { code := .invalidMarkup, args := [selector] }
  | some v =>
      if popupTokens.contains v then Except.ok ()
      else Except.error { code := .invalidMarkup, args := [selector] }

/-- Modelled from the spec: `openPopup(selector)` (spec sections 4.4 and 4.5;
implementation not under `src/`).  The protocol resolves the trigger, runs the
markup validator on it, then the Focus Transfer Verifier (`_use`), then the
Patience Poller with the popup success predicate; `popupAppears` is whether
the expected container appears within the patience deadline.  A validation
failure preempts activation and polling. -/
def openPopup (selector : String) (targets : List Element)
    (popupAppears : Bool) :
    List AriaDriverError × List Command × Except AriaDriverError Unit :=
  match _findOne selector targets with
  | (ws, Except.error e) => (ws, [], Except.error e)
  | (ws, Except.ok trigger) =>
      match validatePopupMarkup selector trigger with
      | Except.error e => (ws, [], Except.error e)
      | Except.ok _ =>
          match _use selector trigger with
          | (cs, Except.error e) => (ws, cs, Except.error e)
          | (cs, Except.ok _) =>
              if popupAppears then
                (ws, cs ++ [Command.pollPredicate], Except.ok ())
              else
                (ws, cs ++ [Command.pollPredicate],
                 Except.error { code := .timeout, args := [selector] })

/-- The code's tabindex guard holds exactly when the attribute is present and
parses (as JavaScript `parseInt`) to a positive integer. -/
theorem positiveTabIndex_iff (t : Option String) :
    positiveTabIndex t = true ↔
      ∃ s n, t = some s ∧ parseIntJS s = some n ∧ 0 < n := by
  cases t with
  | none => simp [positiveTabIndex]
  | some s =>
      cases hp : parseIntJS s with
      | none => simp [positiveTabIndex, hp]
      | some n => simp [positiveTabIndex, hp]

/-- C1: for every selector that matches more than one element, `_findOne`
succeeds with the first match in document order, raises no error, and emits
exactly one `AMBIGUOUS-REFERENCE` warning regardless of the number of
matches. -/
theorem c1_ambiguous_reference (selector : String) (first : Element)
    (rest : List Element) (h : rest ≠ []) :
    (_findOne selector (first :: rest)).2 = Except.ok first ∧
    ((_findOne selector (first :: rest)).1.countP
      (fun w => w.code == ErrorCode.ambiguousReference)) = 1 := by
  have hlen : 0 < rest.length := List.length_pos.mpr h
  refine ⟨rfl, ?_⟩
  unfold _findOne
  simp only [hlen, if_pos, List.countP_append]
  cases hp : positiveTabIndex (first.getAttribute "tabindex") <;>
    simp [List.countP_cons, List.countP_nil]

/-- C1 witness: a selector matching two elements resolves to the first and
yields one ambiguity warning. -/
theorem c1_witness :
    (_findOne "a" [⟨[], true⟩, ⟨[], true⟩]).2 = Except.ok ⟨[], true⟩ ∧
    ((_findOne "a" [⟨[], true⟩, ⟨[], true⟩]).1.countP
      (fun w => w.code == ErrorCode.ambiguousReference)) = 1 :=
  c1_ambiguous_reference "a" ⟨[], true⟩ [⟨[], true⟩] (List.cons_ne_nil _ _)

/-- C2: for every selector that matches zero elements, `_findOne` (and hence
`use`) fails with `ELEMENT-NOT-FOUND` carrying that selector, and `use` issues
no focus or key-dispatch command. -/
theorem c2_element_not_found (selector : String) :
    _findOne selector [] =
      ([], Except.error { code := .elementNotFound, args := [selector] }) ∧
    use selector [] =
      ([], [], Except.error { code := .elementNotFound, args := [selector] }) :=
  ⟨rfl, rfl⟩

/-- C3: for every resolved element, resolution emits a `POOR-SEMANTICS`
warning exactly when its `tabindex` attribute is present and parses to an
integer greater than 0, and emits none otherwise. -/
theorem c3_poor_semantics_iff (selector : String) (first : Element)
    (rest : List Element) :
    (((_findOne selector (first :: rest)).1.countP
        (fun w => w.code == ErrorCode.poorSemantics)) = 1 ↔
      ∃ s n, first.getAttribute "tabindex" = some s ∧
        parseIntJS s = some n ∧ 0 < n) ∧
    (((_findOne selector (first :: rest)).1.countP
        (fun w => w.code == ErrorCode.poorSemantics)) = 0 ↔
      ¬ ∃ s n, first.getAttribute "tabindex" = some s ∧
        parseIntJS s = some n ∧ 0 < n) := by
  rw [← positiveTabIndex_iff]
  unfold _findOne
  cases hp : positiveTabIndex (first.getAttribute "tabindex") <;>
    cases rest <;>
      simp [List.countP_append, List.countP_cons, List.countP_nil, hp]

/-- C4: the activation sequence of `_use` is strictly ordered and
short-circuiting: `aria-hidden="true"` fails `ELEMENT-UNFOCUSABLE` before any
focus command is issued; an issued focus that the page does not accept fails
`ELEMENT-UNFOCUSABLE` after exactly the focus command; the Enter keypress is
dispatched exactly when focus succeeded, and then only after the focus
command. -/
theorem c4_use_ordering (selector : String) (target : Element) :
    (target.getAttribute "aria-hidden" = some "true" →
      _use selector target =
        ([], Except.error { code := .elementUnfocusable, args := [selector] })) ∧
    (target.getAttribute "aria-hidden" ≠ some "true" →
      target.focusAccepted = false →
      _use selector target =
        ([Command.focusScript target],
         Except.error { code := .elementUnfocusable, args := [selector] })) ∧
    (Command.sendKeysEnter target ∈ (_use selector target).1 ↔
      (target.getAttribute "aria-hidden" ≠ some "true" ∧
       target.focusAccepted = true)) ∧
    ((_use selector target).1 =
        [Command.focusScript target, Command.sendKeysEnter target] ∨
      Command.sendKeysEnter target ∉ (_use selector target).1) := by
  unfold _use
  by_cases hh : target.getAttribute "aria-hidden" = some "true"
  · simp [hh]
  · cases hf : target.focusAccepted <;> simp [hh, hf]

/-- C4 witness: an `aria-hidden="true"` element fails with no command
issued. -/
theorem c4_witness :
    _use "a" ⟨[("aria-hidden", "true")], true⟩ =
      ([], Except.error { code := .elementUnfocusable, args := ["a"] }) :=
  (c4_use_ordering "a" ⟨[("aria-hidden", "true")], true⟩).1 rfl

/-- C5 counterexample: an element with no attributes (so no
`aria-hidden="true"` and no positive `tabindex`) whose focus the page does not
accept: `use` emits zero warnings but raises `ELEMENT-UNFOCUSABLE` instead of
succeeding, refuting the claim as stated. -/
theorem c5_counterexample :
    (Element.mk [] false).getAttribute "aria-hidden" ≠ some "true" ∧
    positiveTabIndex ((Element.mk [] false).getAttribute "tabindex") = false ∧
    (use "a" [Element.mk [] false]).1 = [] ∧
    (use "a" [Element.mk [] false]).2.2 =
      Except.error { code := .elementUnfocusable, args := ["a"] } :=
  ⟨by simp [Element.getAttribute], rfl, rfl, rfl⟩

/-- C5 (amended): for every selector matching exactly one element whose
`aria-hidden` attribute is not `"true"`, whose `tabindex` is not a positive
integer, and whose focus the page accepts, `use` succeeds and emits zero
warnings. -/
theorem c5_single_clean_focusable (selector : String) (t : Element)
    (h1 : t.getAttribute "aria-hidden" ≠ some "true")
    (h2 : ¬ ∃ s n, t.getAttribute "tabindex" = some s ∧
      parseIntJS s = some n ∧ 0 < n)
    (h3 : t.focusAccepted = true) :
    (use selector [t]).1 = [] ∧ (use selector [t]).2.2 = Except.ok () := by
  have hpt : positiveTabIndex (t.getAttribute "tabindex") = false := by
    cases hb : positiveTabIndex (t.getAttribute "tabindex") with
    | false => rfl
    | true => exact absurd ((positiveTabIndex_iff _).mp hb) h2
  simp [use, _findOne, _use, hpt, h1, h3]

/-- C5 witness: a single attribute-free element that accepts focus. -/
theorem c5_witness :
    (use "a" [Element.mk [] true]).1 = [] ∧
    (use "a" [Element.mk [] true]).2.2 = Except.ok () :=
  c5_single_clean_focusable "a" (Element.mk [] true)
    (by simp [Element.getAttribute]) (by simp [Element.getAttribute]) rfl

/-- The `driver` field (the constructor-established instance state, including
`_patience`) is untouched by every driver operation. -/
theorem stepOp_driver (s : DriverState) (op : DriverOp) :
    (stepOp s op).driver = s.driver := by
  cases op <;> rfl

/-- Folding any sequence of driver operations leaves the constructor-written
instance state unchanged. -/
theorem foldl_stepOp_driver (ops : List DriverOp) (s : DriverState) :
    (ops.foldl stepOp s).driver = s.driver := by
  induction ops generalizing s with
  | nil => rfl
  | cons op ops ih => rw [List.foldl_cons, ih, stepOp_driver]

/-- C6: the patience value is fixed at construction, defaults to 1000 when
the option is not supplied (constructor called with no options, or with
options lacking the patience key), and no sequence of driver operations
changes the value the `patience` accessor returns. -/
theorem c6_patience_fixed (options : Option Options) (ops : List DriverOp) :
    (AriaDriver.construct none).patience = some 1000 ∧
    (∀ u, (AriaDriver.construct (some { url := u })).patience = some 1000) ∧
    (ops.foldl stepOp (initialState options)).driver.patience =
      (AriaDriver.construct options).patience := by
  refine ⟨rfl, fun u => rfl, ?_⟩
  rw [foldl_stepOp_driver]
  rfl

/-- C7 counterexample: the constructor performs no validation, so an instance
constructed with a negative patience option reports a negative patience,
refuting the claim that patience is non-negative for every instance however
constructed. -/
theorem c7_counterexample :
    (AriaDriver.construct (some { patience := some (-5) })).patience =
      some (-5) ∧
    (-5 : Int) < 0 :=
  ⟨rfl, by decide⟩

/-- C7 (amended): for every driver instance whose construction did not supply
a negative patience option (the option absent, options absent, or the supplied
value non-negative), the patience value is greater than or equal to 0. -/
theorem c7_patience_nonneg (options : Option Options)
    (h : ∀ o p, options = some o → o.patience = some p → 0 ≤ p) :
    ∃ p, (AriaDriver.construct options).patience = some p ∧ 0 ≤ p := by
  cases options with
  | none => exact ⟨1000, rfl, by decide⟩
  | some o =>
      cases hp : o.patience with
      | none =>
          refine ⟨1000, ?_, by decide⟩
          simp [AriaDriver.construct, mergeWithDefaults, AriaDriver.patience,
            hp, defaults]
      | some p =>
          refine ⟨p, ?_, h o p rfl hp⟩
          simp [AriaDriver.construct, mergeWithDefaults, AriaDriver.patience, hp]

/-- C7 witness: default construction yields the non-negative patience 1000. -/
theorem c7_witness :
    (∀ o p, (none : Option Options) = some o → o.patience = some p → 0 ≤ p) ∧
    ∃ p, (AriaDriver.construct none).patience = some p ∧ 0 ≤ p :=
  ⟨fun _ _ h => Option.noConfusion h,
   c7_patience_nonneg none (fun _ _ h => Option.noConfusion h)⟩

/-- C8 counterexample: the constructor reads the options named `patience` and
`url`, not `patienceMs` and `endpoint`.  Passing `patienceMs: 42` leaves the
patience at the default 1000, and passing `endpoint` leaves the server
location unset, refuting the claim. -/
theorem c8_counterexample :
    (AriaDriver.construct
      (some { patienceMs := some 42, endpoint := some "http://backend" })).patience
        = some 1000 ∧
    (some 1000 : Option Int) ≠ some 42 ∧
    (AriaDriver.construct
      (some { patienceMs := some 42, endpoint := some "http://backend" })).serverUrl
        = none :=
  ⟨rfl, by decide, rfl⟩

/-- C8 (amended): construction recognizes the configuration options named
`patience` and `url`: passing `patience` sets the duration reported by the
patience accessor, and passing `url` locates the automation backend the
driver connects to. -/
theorem c8_recognized_options (p : Int) (u : String) :
    (AriaDriver.construct (some { patience := some p, url := some u })).patience
      = some p ∧
    (AriaDriver.construct (some { patience := some p, url := some u })).serverUrl
      = some u :=
  ⟨rfl, rfl⟩

/-- C9: for every trigger whose expected-open-state attribute
(`aria-haspopup`) is absent, literally `"false"`, or an unrecognized token,
`openPopup` fails with `INVALID-MARKUP` and issues no command to the backend:
no focus, no key dispatch, and no polling. -/
theorem c9_invalid_markup_no_activation (selector : String) (trigger : Element)
    (rest : List Element) (popupAppears : Bool)
    (h : ∀ v, trigger.getAttribute "aria-haspopup" = some v → v ∉ popupTokens) :
    (openPopup selector (trigger :: rest) popupAppears).2.2 =
      Except.error { code := .invalidMarkup, args := [selector] } ∧
    (openPopup selector (trigger :: rest) popupAppears).2.1 = [] := by
  have hv : validatePopupMarkup selector trigger =
      Except.error { code := .invalidMarkup, args := [selector] } := by
    unfold validatePopupMarkup
    cases ha : trigger.getAttribute "aria-haspopup" with
    | none => rfl
    | some v => simp [h v ha]
  unfold openPopup _findOne
  simp [hv]

/-- C9 witness: a trigger with `aria-haspopup="false"` fails validation with
no backend command. -/
theorem c9_witness :
    (openPopup "a" [Element.mk [("aria-haspopup", "false")] true] true).2.2 =
      Except.error { code := .invalidMarkup, args := ["a"] } ∧
    (openPopup "a" [Element.mk [("aria-haspopup", "false")] true] true).2.1 = [] :=
  c9_invalid_markup_no_activation "a" (Element.mk [("aria-haspopup", "false")] true)
    [] true
    (by
      intro v hv
      simp [Element.getAttribute] at hv
      subst hv
      decide)

/-- C10: warnings produced during resolution are emitted even when activation
later fails: `use` on a selector whose single match has a positive `tabindex`
and `aria-hidden="true"` emits the `POOR-SEMANTICS` warning and raises
`ELEMENT-UNFOCUSABLE`, with no backend command issued (the warning precedes
the activation attempt and is not withdrawn). -/
theorem c10_warning_survives_failure (selector : String) (t : Element)
    (h1 : t.getAttribute "aria-hidden" = some "true")
    (h2 : ∃ s n, t.getAttribute "tabindex" = some s ∧
      parseIntJS s = some n ∧ 0 < n) :
    ((use selector [t]).1.countP
      (fun w => w.code == ErrorCode.poorSemantics)) = 1 ∧
    (use selector [t]).2.2 =
      Except.error { code := .elementUnfocusable, args := [selector] } ∧
    (use selector [t]).2.1 = [] := by
  have hpt : positiveTabIndex (t.getAttribute "tabindex") = true :=
    (positiveTabIndex_iff _).mpr h2
  simp [use, _findOne, _use, hpt, h1, List.countP_cons, List.countP_nil]

/-- C10 witness: a single match with `tabindex="1"` and
`aria-hidden="true"`. -/
theorem c10_witness :
    ((use "a" [Element.mk [("aria-hidden", "true"), ("tabindex", "1")] true]).1.countP
      (fun w => w.code == ErrorCode.poorSemantics)) = 1 ∧
    (use "a" [Element.mk [("aria-hidden", "true"), ("tabindex", "1")] true]).2.2 =
      Except.error { code := .elementUnfocusable, args := ["a"] } ∧
    (use "a" [Element.mk [("aria-hidden", "true"), ("tabindex", "1")] true]).2.1 = [] :=
  c10_warning_survives_failure "a"
    (Element.mk [("aria-hidden", "true"), ("tabindex", "1")] true)
    rfl
    ⟨"1", 1, rfl, by decide, by decide⟩
